import Mathlib

/-!
Verification of the tw-stock-tool repository (shallow embedding).

Numeric values are modelled with `ℚ` (exact rationals standing for the
program's floats); a pandas cell that may be NaN is `Option ℚ` with `none`
for NaN, and comparisons against NaN are `false`, as in pandas.
-/

namespace TwStock

/-! ## backtest_engine.py — the simulation core of `run_backtest`

`run_backtest` (src/backtest_engine.py lines 84–151) iterates over the
per-session probabilities produced by `model.predict_proba` (an external
sklearn model, so the probability series is an input here) together with the
close prices.  The state of the loop is the flag `holding`, the entry price,
the list of closed trades and the running portfolio-value series. -/

structure Trade where
  entry : ℚ
  exitP : ℚ
  ret   : ℚ
  deriving Repr, DecidableEq

structure BState where
  holding    : Bool
  entryPrice : ℚ
  trades     : List Trade
  pv         : List ℚ
  deriving Repr, DecidableEq

/-- One iteration of the backtest loop (body of `for i in range(len(prob_up)-1)`,
src/backtest_engine.py lines 92–116): when flat, buy iff `p > buy_threshold`;
when holding, append the daily portfolio value and sell iff `p < sell_threshold`,
exiting at the NEXT session's close. -/
def backtestStep (buyTh sellTh : ℚ) (currentPrice nextPrice p : ℚ)
    (st : BState) : BState :=
  if st.holding = false then
    if p > buyTh then
      { st with holding := true, entryPrice := currentPrice }
    else
      st
  else
    let dailyReturn := (nextPrice - currentPrice) / currentPrice
    let pv := st.pv ++ [(st.pv.getLastD 1) * (1 + dailyReturn)]
    if p < sellTh then
      let exitPrice := nextPrice
      let tradeReturn := (exitPrice - st.entryPrice) / st.entryPrice
      { holding := false, entryPrice := st.entryPrice,
        trades := st.trades ++ [⟨st.entryPrice, exitPrice, tradeReturn⟩],
        pv := pv }
    else
      { st with pv := pv }

/-- Result dictionary of `run_backtest` (metrics part). -/
structure BacktestResult where
  totalReturn : ℚ
  winRate     : ℚ
  maxDrawdown : ℚ
  numTrades   : ℕ
  trades      : List Trade
  deriving Repr, DecidableEq

/-- Python `round(x, 2)` on an exact value: round half to even at two decimals. -/
def roundHalfEven2 (x : ℚ) : ℚ :=
  let y := x * 100
  let f : ℤ := ⌊y⌋
  let r := y - (f : ℚ)
  let n : ℤ :=
    if r < 1/2 then f
    else if r > 1/2 then f + 1
    else if f % 2 = 0 then f else f + 1
  (n : ℚ) / 100

/-- Maximum drawdown of the portfolio-value series
(src/backtest_engine.py lines 137–144): running peaks, drawdowns
`(pv - peak)/peak`, and the absolute value of the minimum. -/
def maxDrawdownOf (pv : List ℚ) : ℚ :=
  if pv.length ≤ 1 then 0
  else
    let rec go : ℚ → ℚ → List ℚ → ℚ
      | _,    worst, []      => worst
      | peak, worst, v :: vs =>
          let peak2 := max peak v
          go peak2 (min worst ((v - peak2) / peak2)) vs
    |(go 0 0 pv)|

/-- The simulation core of `run_backtest` (src/backtest_engine.py lines
84–151): fold the loop body over the sessions `0 … len-2`, close any open
position at the final close, and compute the reported metrics. -/
def runBacktestSim (close probUp : List ℚ) (buyTh sellTh : ℚ) :
    BacktestResult :=
  let n := probUp.length
  let final := (List.range (n - 1)).foldl
    (fun st i => backtestStep buyTh sellTh (close.getD i 0) (close.getD (i+1) 0)
                   (probUp.getD i 0) st)
    { holding := false, entryPrice := 0, trades := [], pv := [1] }
  let trades :=
    if final.holding = true ∧ close ≠ [] then
      let exitPrice := close.getLastD 0
      final.trades ++
        [⟨final.entryPrice, exitPrice,
          (exitPrice - final.entryPrice) / final.entryPrice⟩]
    else final.trades
  let totalReturn := (trades.map Trade.ret).sum
  let winRate :=
    if trades ≠ [] then
      ((trades.filter (fun t => t.ret > 0)).length : ℚ) / (trades.length : ℚ)
    else 0
  { totalReturn := roundHalfEven2 (totalReturn * 100),
    winRate := roundHalfEven2 (winRate * 100),
    maxDrawdown := roundHalfEven2 (maxDrawdownOf final.pv * 100),
    numTrades := trades.length,
    trades := trades }

/-! ## model_trainer.py — `get_rf_params` -/

/-- RandomForest hyper-parameter dictionary (src/model_trainer.py lines 66–83). -/
structure RFParams where
  nEstimators    : ℕ
  maxDepth       : Option ℕ
  minSamplesLeaf : ℕ
  maxFeatures    : String
  randomState    : ℕ
  nJobs          : ℤ
  deriving Repr, DecidableEq

/-- `get_rf_params` (src/model_trainer.py lines 54–83): conservative
parameters below 1000 effective training rows, standard parameters otherwise. -/
def get_rf_params (nRows : ℕ) : RFParams :=
  if nRows < 1000 then
    { nEstimators := 50, maxDepth := some 5, minSamplesLeaf := 10,
      maxFeatures := "sqrt", randomState := 42, nJobs := -1 }
  else
    { nEstimators := 100, maxDepth := none, minSamplesLeaf := 2,
      maxFeatures := "sqrt", randomState := 42, nJobs := -1 }

/-! ## model_trainer.py — `time_series_train_test_split` and
`train_random_forest` -/

/-- A row of a feature DataFrame: its (sortable) index timestamp, the
`target` cell and the feature cells; `none` is a NaN cell. -/
structure SRow where
  ts     : ℤ
  target : Option ℚ
  feats  : List (Option ℚ)
  deriving Repr, DecidableEq

/-- The comparison pandas `sort_index()` sorts rows by. -/
def tsLE (a b : SRow) : Prop := a.ts ≤ b.ts

instance : DecidableRel tsLE := fun a b => inferInstanceAs (Decidable (a.ts ≤ b.ts))

instance : IsTotal SRow tsLE := ⟨fun a b => Int.le_total a.ts b.ts⟩

instance : IsTrans SRow tsLE := ⟨fun _ _ _ h h2 => le_trans h h2⟩

/-- `time_series_train_test_split` (src/model_trainer.py lines 19–51):
drop rows whose `target` is NaN, sort by index, and split at
`int(n * (1 - test_size))` — earliest rows to train, remainder to test.
(The returned X/y column separation does not move rows, so the split is
modelled as the pair of row lists.  The index arithmetic is faithful for a
test fraction in [0, 1], where `int()` truncation coincides with the floor
and the split index is nonnegative; the callers pass the 0.2 default.) -/
def time_series_train_test_split (featureDf : List SRow) (testSize : ℚ) :
    List SRow × List SRow :=
  let df := (featureDf.filter (fun r => r.target.isSome)).insertionSort tsLE
  let n := df.length
  let splitIdx := (⌊(n : ℚ) * (1 - testSize)⌋).toNat
  (df.take splitIdx, df.drop splitIdx)

/-- `dropna()` keeps a row iff no cell of it is NaN. -/
def rowComplete (r : SRow) : Bool :=
  r.target.isSome && r.feats.all (fun c => c.isSome)

/-- Outcome of `train_random_forest` (src/model_trainer.py lines 86–183).
The sklearn `RandomForestClassifier.fit` call is external; `fitted` records
that a classifier is fitted with the given parameters and split sizes, and
`failure` is the early-return dict with `model = None` and an `error` string. -/
inductive TrainResult where
  | failure (msg : String)
  | fitted (params : RFParams) (trainRows testRows : ℕ)
  deriving Repr, DecidableEq

/-- Whether the result carries a fitted model (`result['model'] is not None`). -/
def TrainResult.hasModel : TrainResult → Bool
  | .failure _ => false
  | .fitted _ _ _ => true

/-- The `error` string of a failure result. -/
def TrainResult.errMsg : TrainResult → Option String
  | .failure m => some m
  | .fitted _ _ _ => none

/-- `train_random_forest` on a single feature DataFrame
(src/model_trainer.py lines 127–183): empty input fails with
`Empty dataset`; after `dropna()` fewer than 50 rows fails with
`Too few rows: n`; otherwise the chronological split is taken and a
RandomForest with `get_rf_params(len(X_train))` is fitted. -/
def train_random_forest (data : List SRow) (testSize : ℚ) : TrainResult :=
  if data.isEmpty then .failure "Empty dataset"
  else
    let combined := data.filter rowComplete
    if combined.length < 50 then
      .failure ("Too few rows: " ++ toString combined.length)
    else
      let split := time_series_train_test_split combined testSize
      .fitted (get_rf_params split.1.length) split.1.length split.2.length

/-! ## analysis_engine.py — `analyze_short_term`

`analyze_short_term` (src/analysis_engine.py lines 146–314) reads only the
last row (and for KD the second-to-last row) of the indicator-enriched
DataFrame, plus the 5-day rolling mean of `Volume`, plus the sum
`Foreign + Trust` over the first three rows of the institutional DataFrame
(modelled as `instTotal`, `none` when that DataFrame is missing or empty).
Indicator cells may be NaN (`Option ℚ`); a comparison with NaN is `false`.
The returned details list and the operation style do not affect the score
and are omitted; exceptions raised by the function body are modelled with
`Except.error`. -/

/-- A row of the indicator-enriched DataFrame
(columns added by src/technical_analysis.py). -/
structure IndRow where
  close  : ℚ
  high   : ℚ
  low    : ℚ
  volume : ℚ
  ma5    : Option ℚ
  ma20   : Option ℚ
  ma60   : Option ℚ
  rsi    : Option ℚ
  macd   : Option ℚ
  macdSig : Option ℚ
  k      : Option ℚ
  d      : Option ℚ
  deriving Repr, DecidableEq, Inhabited

/-- pandas `a < b` on possibly-NaN scalars: `false` whenever a side is NaN. -/
def oLT : Option ℚ → Option ℚ → Bool
  | some a, some b => decide (a < b)
  | _, _ => false

/-- pandas `a > b` on possibly-NaN scalars: `false` whenever a side is NaN. -/
def oGT : Option ℚ → Option ℚ → Bool
  | some a, some b => decide (a > b)
  | _, _ => false

/-- Block 1, MA trend (src/analysis_engine.py lines 158–178):
`+2` for `ma5 > ma20 > ma60`, `+1` for `ma5 > ma20`, `-1` for `ma5 < ma20`. -/
def maScoreOf (r : IndRow) : ℤ :=
  if oGT r.ma5 r.ma20 && oGT r.ma20 r.ma60 then 2
  else if oGT r.ma5 r.ma20 then 1
  else if oLT r.ma5 r.ma20 then -1
  else 0

/-- Block 2, RSI (src/analysis_engine.py lines 187–203):
`+1` for `50 < rsi < 70`, `-1` for `rsi > 80`, `+1` for `rsi < 30`. -/
def rsiScoreOf (r : IndRow) : ℤ :=
  if oLT (some 50) r.rsi && oLT r.rsi (some 70) then 1
  else if oGT r.rsi (some 80) then -1
  else if oLT r.rsi (some 30) then 1
  else 0

/-- Block 3, MACD (src/analysis_engine.py lines 212–221):
`+1` for `macd > signal_line`. -/
def macdScoreOf (r : IndRow) : ℤ :=
  if oGT r.macd r.macdSig then 1 else 0

/-- Block 4, institutional chips (src/analysis_engine.py lines 230–244):
`+1` when the 3-day `Foreign + Trust` sum is positive; no contribution when
the institutional DataFrame is missing or empty. -/
def instScoreOf : Option ℤ → ℤ
  | some t => if t > 0 then 1 else 0
  | none => 0

/-- Block 5, volume (src/analysis_engine.py lines 253–264):
`+1` when today's volume exceeds twice its 5-day average. -/
def volScoreOf (vol : ℚ) (volAvg : Option ℚ) : ℤ :=
  if oGT (some vol) (volAvg.map (fun a => a * 2)) then 1 else 0

/-- Block 6, KD timing (src/analysis_engine.py lines 273–295):
`+2` for a gold cross in the oversold zone, `-1` for a death cross in the
overbought zone. -/
def kdScoreOf (r prev : IndRow) : ℤ :=
  if oLT r.k (some 20) && oGT r.k r.d && oLT prev.k prev.d then 2
  else if oGT r.k (some 80) then
    if oLT r.k r.d && oGT prev.k prev.d then -1 else 0
  else 0

/-- Signal strings produced by the analysis functions. -/
inductive Signal where
  | strongBuy
  | buy
  | sell
  | wait
  | neutral
  deriving Repr, DecidableEq

/-- Final verdict of `analyze_short_term` (src/analysis_engine.py lines 307–314). -/
def shortTermVerdict (score : ℤ) : Signal :=
  if score ≥ 4 then .strongBuy
  else if score ≥ 2 then .buy
  else if score ≤ -1 then .sell
  else .wait

/-- `analyze_short_term` (src/analysis_engine.py lines 146–314), returning
the signal and score.  An empty DataFrame short-circuits to score 0.
Otherwise the six scoring blocks run in order; while formatting the volume
details entry the code computes `int(vol_avg)`, which raises `ValueError`
when the 5-day rolling mean is NaN (fewer than 5 rows), and the KD block
reads `iloc[-2]`, which raises `IndexError` on a 1-row DataFrame. -/
def analyze_short_term (df : List IndRow) (instTotal : Option ℤ) :
    Except String (Signal × ℤ) :=
  if df.isEmpty then .ok (.neutral, 0)
  else
    let lastRow := df.getLastD default
    let volAvg : Option ℚ :=
      if 5 ≤ df.length then
        some (((df.drop (df.length - 5)).map IndRow.volume).sum / 5)
      else none
    let s5 := maScoreOf lastRow + rsiScoreOf lastRow + macdScoreOf lastRow +
      instScoreOf instTotal + volScoreOf lastRow.volume volAvg
    if volAvg.isNone then
      .error "ValueError: cannot convert float NaN to integer"
    else if df.length < 2 then
      .error "IndexError: single positional indexer is out-of-bounds"
    else
      let prevRow := df.getD (df.length - 2) default
      let score := s5 + kdScoreOf lastRow prevRow
      .ok (shortTermVerdict score, score)

/-! ## analysis_engine.py — `process_ticker`

`process_ticker` is defined twice in src/analysis_engine.py; the second
definition (lines 600–659) shadows the first (lines 39–112).  Data fetching
and the analysis functions are external to the inclusion decision, which is
a function of the instrument class (`ticker.startswith("00")`) and the score
the analysis returned; the result is `some s` when the ticker is returned
with score `s`, `none` when the function returns `None`. -/

inductive Mode where
  | shortTerm
  | longTerm
  deriving Repr, DecidableEq

/-- Inclusion decision of the FIRST `process_ticker`
(src/analysis_engine.py lines 39–112): Short-term uses threshold 3,
lowered to 2 for ETFs; Long-term uses threshold 4, and for ETFs lowers it
to 2 AND adds a stability bonus of 1 to the score before comparing and
returning it. -/
def process_ticker_v1 (mode : Mode) (isEtf : Bool) (score : ℤ) : Option ℤ :=
  match mode with
  | .shortTerm =>
      let threshold : ℤ := if isEtf then 2 else 3
      if score ≥ threshold then some score else none
  | .longTerm =>
      let threshold : ℤ := if isEtf then 2 else 4
      let score := if isEtf then score + 1 else score
      if score ≥ threshold then some score else none

/-- Inclusion decision of the SECOND, shadowing `process_ticker`
(src/analysis_engine.py lines 600–659): fixed thresholds 3 (Short-term) and
4 (Long-term); the instrument class is never consulted. -/
def process_ticker_v2 (mode : Mode) (score : ℤ) : Option ℤ :=
  match mode with
  | .shortTerm => if score ≥ 3 then some score else none
  | .longTerm => if score ≥ 4 then some score else none

/-! ## analysis_engine.py — `get_stock_recommendations`

`get_stock_recommendations` (src/analysis_engine.py lines 114–144) collects
the non-`None` `process_ticker` results in task-COMPLETION order
(`as_completed`), then post-processes that list.  The post-processing is
embedded here as a function of the completion-order list. -/

/-- A `process_ticker` result dict (the fields the post-processing reads). -/
structure Rec where
  ticker : String
  score  : ℤ
  signal : Signal
  deriving Repr, DecidableEq

/-- Comparison used by `recommendations.sort(key=score, reverse=True)`. -/
def scoreGE (a b : Rec) : Prop := b.score ≤ a.score

instance : DecidableRel scoreGE := fun a b => inferInstanceAs (Decidable (b.score ≤ a.score))

instance : IsTotal Rec scoreGE := ⟨fun a b => Int.le_total b.score a.score⟩

instance : IsTrans Rec scoreGE := ⟨fun _ _ _ h h2 => le_trans h2 h⟩

/-- Comparison used by `warnings.sort(key=score)`. -/
def scoreLE (a b : Rec) : Prop := a.score ≤ b.score

instance : DecidableRel scoreLE := fun a b => inferInstanceAs (Decidable (a.score ≤ b.score))

instance : IsTotal Rec scoreLE := ⟨fun a b => Int.le_total a.score b.score⟩

instance : IsTrans Rec scoreLE := ⟨fun _ _ _ h h2 => le_trans h h2⟩

/-- `get_stock_recommendations` post-processing (src/analysis_engine.py
lines 133–144): stable sort by score descending (Python `list.sort` is
stable, as is `insertionSort`), take the first 10 with score ≥ 3 as
`top_picks`, filter scores ≤ 1 or Sell/Wait signals as warnings, stable
sort those ascending and keep the first 5. -/
def get_stock_recommendations (results : List Rec) : List Rec × List Rec :=
  let recommendations := results.insertionSort scoreGE
  let topPicks := (recommendations.filter (fun r => decide (3 ≤ r.score))).take 10
  let warnings0 := recommendations.filter
    (fun r => decide (r.score ≤ 1) || decide (r.signal = Signal.sell) ||
      decide (r.signal = Signal.wait))
  let warnings := (warnings0.insertionSort scoreLE).take 5
  (topPicks, warnings)

/-! ## feature_engineering.py — `create_features`

An OHLCV DataFrame is a `List Bar` in chronological order; a column is a
function `Nat → Option ℚ` from row position (the causal notion of
"timestamp": positions respect chronological order) to cell value, `none`
standing for a NaN cell or an out-of-range position. -/

structure Bar where
  open_  : ℚ
  high   : ℚ
  low    : ℚ
  close  : ℚ
  volume : ℚ
  deriving Repr, DecidableEq

/-- The `Close` column (similarly for the other OHLCV columns). -/
def closeCol (s : List Bar) (t : ℕ) : Option ℚ := (s.get? t).map Bar.close

def highCol (s : List Bar) (t : ℕ) : Option ℚ := (s.get? t).map Bar.high

def lowCol (s : List Bar) (t : ℕ) : Option ℚ := (s.get? t).map Bar.low

def volumeCol (s : List Bar) (t : ℕ) : Option ℚ := (s.get? t).map Bar.volume

/-- pandas `Series.diff()`: NaN at position 0, else the difference with the
previous cell. -/
def diffCol (c : ℕ → Option ℚ) (t : ℕ) : Option ℚ :=
  if t = 0 then none
  else match c t, c (t - 1) with
    | some a, some b => some (a - b)
    | _, _ => none

/-- `delta.where(delta > 0, 0.0)` (src/feature_engineering.py line 15):
keep positive differences, everything else (including the NaN at 0) is 0. -/
def gainCol (c : ℕ → Option ℚ) (t : ℕ) : Option ℚ :=
  (c t).map (fun _ =>
    match diffCol c t with
    | some d => if 0 < d then d else 0
    | none => 0)

/-- `-delta.where(delta < 0, 0.0)` (src/feature_engineering.py line 16). -/
def lossCol (c : ℕ → Option ℚ) (t : ℕ) : Option ℚ :=
  (c t).map (fun _ =>
    match diffCol c t with
    | some d => if d < 0 then -d else 0
    | none => 0)

/-- All cells of a window, provided none is NaN. -/
def collectSome : List (Option ℚ) → Option (List ℚ)
  | [] => some []
  | none :: _ => none
  | some x :: rest => (collectSome rest).map (fun xs => x :: xs)

/-- A rolling window of size `p` with `min_periods = p`: the cells at
positions `t, t-1, …, t-p+1`, provided the window is full and no cell in it
is NaN. -/
def windowAt (p : ℕ) (c : ℕ → Option ℚ) (t : ℕ) : Option (List ℚ) :=
  if t + 1 < p then none
  else collectSome ((List.range p).map (fun j => c (t - j)))

/-- `rolling(window=p, min_periods=p).mean()`. -/
def rollingMean (p : ℕ) (c : ℕ → Option ℚ) (t : ℕ) : Option ℚ :=
  (windowAt p c t).map (fun xs => xs.sum / (p : ℚ))

/-- `rolling(window=p, min_periods=p).min()`. -/
def rollingMin (p : ℕ) (c : ℕ → Option ℚ) (t : ℕ) : Option ℚ :=
  (windowAt p c t).map (fun xs => xs.foldr min (xs.headD 0))

/-- `rolling(window=p, min_periods=p).max()`. -/
def rollingMax (p : ℕ) (c : ℕ → Option ℚ) (t : ℕ) : Option ℚ :=
  (windowAt p c t).map (fun xs => xs.foldr max (xs.headD 0))

/-- The SQUARE of `rolling(window=p, min_periods=p).std()`: the sample
variance (ddof = 1) of the window.  The code's cell is the nonnegative
square root of this one, so two series agree on the `std` column exactly
when they agree on this column. -/
def rollingVar (p : ℕ) (c : ℕ → Option ℚ) (t : ℕ) : Option ℚ :=
  (windowAt p c t).map (fun xs =>
    let m := xs.sum / (p : ℚ)
    (xs.map (fun x => (x - m) ^ 2)).sum / ((p : ℚ) - 1))

/-- `ewm(span, adjust=False).mean()`: `y₀ = x₀`,
`yₜ = (1-α)·yₜ₋₁ + α·xₜ` with `α = 2/(span+1)`; a cell is NaN outside the
series.  (Applied only to all-finite columns in this file.) -/
def ewmCol (α : ℚ) (c : ℕ → Option ℚ) : ℕ → Option ℚ
  | 0 => c 0
  | t + 1 =>
    match c (t + 1), ewmCol α c t with
    | some x, some y => some ((1 - α) * y + α * x)
    | some x, none => some x
    | none, _ => none

/-- `Series.shift(k)` for `k ≥ 1`: NaN for the first `k` positions, else the
cell `k` positions back. -/
def shiftCol (k : ℕ) (c : ℕ → Option ℚ) (t : ℕ) : Option ℚ :=
  if t < k then none else c (t - k)

/-- `Series.pct_change(k)`: NaN for the first `k` positions, else
`(xₜ - xₜ₋ₖ)/xₜ₋ₖ` (`none` also for a zero base, where the float code
produces a non-finite value). -/
def pctChangeCol (k : ℕ) (c : ℕ → Option ℚ) (t : ℕ) : Option ℚ :=
  if t < k then none
  else match c t, c (t - k) with
    | some a, some b => if b = 0 then none else some ((a - b) / b)
    | _, _ => none

/-- `compute_rsi` (src/feature_engineering.py lines 12–23) as a column. -/
def rsiCol (close : ℕ → Option ℚ) (t : ℕ) : Option ℚ :=
  match rollingMean 14 (gainCol close) t, rollingMean 14 (lossCol close) t with
  | some g, some l => if l = 0 then none else some (100 - 100 / (1 + g / l))
  | _, _ => none

/-- `compute_macd` (src/feature_engineering.py lines 26–36): the MACD line. -/
def macdCol (close : ℕ → Option ℚ) (t : ℕ) : Option ℚ :=
  match ewmCol (2 / 13) close t, ewmCol (2 / 27) close t with
  | some f, some s => some (f - s)
  | _, _ => none

/-- The MACD signal line: `macd.ewm(span=9, adjust=False).mean()`. -/
def macdSignalCol (close : ℕ → Option ℚ) : ℕ → Option ℚ :=
  ewmCol (2 / 10) (macdCol close)

/-- The MACD histogram: `macd - macd_signal`. -/
def macdHistCol (close : ℕ → Option ℚ) (t : ℕ) : Option ℚ :=
  match macdCol close t, macdSignalCol close t with
  | some m, some s => some (m - s)
  | _, _ => none

/-- `bias_20 = (close - ma20) / ma20.replace(0, nan)`
(src/feature_engineering.py lines 100–101). -/
def bias20Col (close : ℕ → Option ℚ) (t : ℕ) : Option ℚ :=
  match close t, rollingMean 20 close t with
  | some cl, some ma => if ma = 0 then none else some ((cl - ma) / ma)
  | _, _ => none

/-- `hl_range = (high - low) / close.replace(0, nan)`
(src/feature_engineering.py line 104). -/
def hlRangeCol (s : List Bar) (t : ℕ) : Option ℚ :=
  (s.get? t).bind (fun b => if b.close = 0 then none
    else some ((b.high - b.low) / b.close))

/-- `compute_stochastic_kd` %K (src/feature_engineering.py lines 39–48). -/
def stochKCol (s : List Bar) (t : ℕ) : Option ℚ :=
  match closeCol s t, rollingMin 9 (lowCol s) t, rollingMax 9 (highCol s) t with
  | some cl, some ll, some hh =>
      if hh - ll = 0 then none else some (100 * (cl - ll) / (hh - ll))
  | _, _, _ => none

/-- `compute_stochastic_kd` %D: 3-period rolling mean of %K. -/
def stochDCol (s : List Bar) : ℕ → Option ℚ :=
  rollingMean 3 (stochKCol s)

/-- The label column (src/feature_engineering.py lines 119–123):
`(close.shift(-1) > close).astype(float)` — the comparison with the NaN at
the end is `False`, i.e. 0 — and then the LAST row's cell is explicitly
overwritten with NaN. -/
def targetCol (s : List Bar) (t : ℕ) : Option ℚ :=
  if t + 1 = s.length then none
  else (closeCol s t).map (fun cl =>
    if oGT (closeCol s (t + 1)) (some cl) then 1 else 0)

/-- One row of the non-label output of `create_features`
(src/feature_engineering.py lines 51–128) at position `t`.  The
`volatility20dVar` field carries the square of the code's
`volatility_20d` cell (see `rollingVar`); the KD fields are `none` when
`add_kd` is false (columns absent). -/
structure FeatureRow where
  rsi14           : Option ℚ
  macd            : Option ℚ
  macdSignal      : Option ℚ
  macdHist        : Option ℚ
  ret1d           : Option ℚ
  ret5d           : Option ℚ
  volatility20dVar : Option ℚ
  bias20          : Option ℚ
  hlRange         : Option ℚ
  closeLags       : List (Option ℚ)
  volumeLags      : List (Option ℚ)
  ret1dLags       : List (Option ℚ)
  stochK          : Option ℚ
  stochD          : Option ℚ
  deriving Repr, DecidableEq

/-- The non-label feature row of `create_features` at position `t`
(src/feature_engineering.py lines 76–116). -/
def create_features_row (s : List Bar) (lags : ℕ) (addKd : Bool) (t : ℕ) :
    FeatureRow :=
  let close := closeCol s
  let ret1d := pctChangeCol 1 close
  { rsi14 := rsiCol close t
    macd := macdCol close t
    macdSignal := macdSignalCol close t
    macdHist := macdHistCol close t
    ret1d := ret1d t
    ret5d := pctChangeCol 5 close t
    volatility20dVar := rollingVar 20 ret1d t
    bias20 := bias20Col close t
    hlRange := hlRangeCol s t
    closeLags := (List.range lags).map (fun k => shiftCol (k + 1) close t)
    volumeLags := (List.range lags).map (fun k => shiftCol (k + 1) (volumeCol s) t)
    ret1dLags := (List.range lags).map (fun k => shiftCol (k + 1) ret1d t)
    stochK := if addKd then stochKCol s t else none
    stochD := if addKd then stochDCol s t else none }

/-! ## Auxiliary predicates and concrete inputs used by the theorems -/

/-- Two columns agree at every position up to `t`. -/
def AgreeTo {α : Type} (t : ℕ) (c₁ c₂ : ℕ → α) : Prop :=
  ∀ i, i ≤ t → c₁ i = c₂ i

/-- Strictly-descending-score-or-equal relation on result dicts; antisymmetric,
so a sorted list is determined by its multiset of elements. -/
def scoreStrict (a b : Rec) : Prop := b.score < a.score ∨ a = b

instance : IsAntisymm Rec scoreStrict :=
  ⟨fun a b h1 h2 => by
    rcases h1 with h1 | h1
    · rcases h2 with h2 | h2
      · exact absurd (h1.trans h2) (lt_irrefl _)
      · exact h2.symm
    · exact h1⟩

/-- A flat bar at the given close (witness data). -/
def flatBar (c : ℚ) : Bar := ⟨c, c, c, c, 1000⟩

/-- Witness bar series with closes 100, 102, 101, 105. -/
def exBars : List Bar := [flatBar 100, flatBar 102, flatBar 101, flatBar 105]

/-- Witness pair for causality: two series that agree on bar 0 and differ
strictly after it. -/
def exSeriesA : List Bar := [flatBar 100, flatBar 102]

/-- See `exSeriesA`. -/
def exSeriesB : List Bar := [flatBar 100, flatBar 90]

/-- A 1-row indicator DataFrame (all indicator cells NaN, as on a 1-row
history). -/
def oneRowEx : IndRow :=
  { close := 10, high := 11, low := 9, volume := 1000,
    ma5 := none, ma20 := none, ma60 := none, rsi := none,
    macd := none, macdSig := none, k := none, d := none }

/-- A 5-row indicator DataFrame (witness data). -/
def fiveRowsEx : List IndRow :=
  [oneRowEx, oneRowEx, oneRowEx, oneRowEx,
   { close := 10, high := 11, low := 9, volume := 1000,
     ma5 := some 10, ma20 := some 9, ma60 := some 8, rsi := some 60,
     macd := some 1, macdSig := some 0, k := some 50, d := some 40 }]

/-- Two result dicts with equal scores (counterexample data for C9). -/
def recTieA : Rec := { ticker := "2330.TW", score := 3, signal := .buy }

/-- See `recTieA`. -/
def recTieB : Rec := { ticker := "2317.TW", score := 3, signal := .buy }

/-- Two result dicts with distinct scores (witness data for C9). -/
def recDistA : Rec := { ticker := "2330.TW", score := 4, signal := .strongBuy }

/-- See `recDistA`. -/
def recDistB : Rec := { ticker := "2317.TW", score := 3, signal := .buy }

/-- 100 labeled, chronologically sorted feature rows (witness data for C2). -/
def rows100 : List SRow :=
  (List.range 100).map (fun i => { ts := (i : ℤ), target := some 1, feats := [] })

/-- The close price at position `t` (0 outside the series; used only at
in-range positions in the statements below). -/
def closeAt (s : List Bar) (t : ℕ) : ℚ := ((s.get? t).map Bar.close).getD 0

/-! ## Theorems -/

/-- Claim C2: on a chronologically sorted feature DataFrame all of whose
rows have a defined label, `time_series_train_test_split` puts the earliest
`floor(n * (1 - test_size))` rows in training and the rest in test, and no
test row has a timestamp earlier than any training row. -/
theorem chrono_split_C2 (rows : List SRow) (testSize : ℚ)
    (h0 : 0 ≤ testSize) (h1 : testSize ≤ 1)
    (hsorted : rows.Sorted tsLE) (hdef : ∀ r ∈ rows, r.target.isSome = true) :
    time_series_train_test_split rows testSize =
        (rows.take (⌊(rows.length : ℚ) * (1 - testSize)⌋).toNat,
          rows.drop (⌊(rows.length : ℚ) * (1 - testSize)⌋).toNat) ∧
      ∀ a ∈ (time_series_train_test_split rows testSize).1,
        ∀ b ∈ (time_series_train_test_split rows testSize).2, a.ts ≤ b.ts := by
  have hfil : rows.filter (fun r => r.target.isSome) = rows :=
    List.filter_eq_self.mpr hdef
  have hsortEq : ((rows.filter (fun r => r.target.isSome)).insertionSort tsLE) = rows := by
    rw [hfil]
    exact hsorted.insertionSort_eq
  have hmain : time_series_train_test_split rows testSize =
      (rows.take (⌊(rows.length : ℚ) * (1 - testSize)⌋).toNat,
        rows.drop (⌊(rows.length : ℚ) * (1 - testSize)⌋).toNat) := by
    simp only [time_series_train_test_split, hsortEq]
  refine ⟨hmain, ?_⟩
  rw [hmain]
  intro a ha b hb
  have hsplit : rows.take (⌊(rows.length : ℚ) * (1 - testSize)⌋).toNat ++
      rows.drop (⌊(rows.length : ℚ) * (1 - testSize)⌋).toNat = rows :=
    List.take_append_drop _ rows
  have hpw : (rows.take (⌊(rows.length : ℚ) * (1 - testSize)⌋).toNat ++
      rows.drop (⌊(rows.length : ℚ) * (1 - testSize)⌋).toNat).Pairwise tsLE := by
    rw [hsplit]
    exact hsorted
  exact (List.pairwise_append.mp hpw).2.2 a ha b hb

/-- Witness for C2: 100 sorted labeled rows with test fraction 0.2 split at
row 80. -/
theorem chrono_split_C2_witness :
    time_series_train_test_split rows100 (1/5) =
      (rows100.take 80, rows100.drop 80) := by
  have h := (chrono_split_C2 rows100 (1/5) (by norm_num) (by norm_num)
    (by decide) (by decide)).1
  have hlen : rows100.length = 100 := by decide
  rw [hlen] at h
  have hidx : (⌊((100 : ℕ) : ℚ) * (1 - 1/5)⌋).toNat = 80 := by
    norm_num
    decide
  rw [hidx] at h
  exact h

/-- Claim C5: when a label is requested, `label[t] = 1` if
`close[t+1] > close[t]` and 0 otherwise, and the final row's label is unset
(`NaN`, never 0 or 1). -/
theorem label_correct_C5 (s : List Bar) (t : ℕ) :
    (t + 1 < s.length →
      targetCol s t = some (if closeAt s (t+1) > closeAt s t then 1 else 0)) ∧
      (t + 1 = s.length → targetCol s t = none) := by
  constructor
  · intro h
    have ht : t < s.length := Nat.lt_of_succ_lt h
    have hne : ¬ (t + 1 = s.length) := Nat.ne_of_lt h
    have hb1 : s.get? t = some (s.get ⟨t, ht⟩) := List.get?_eq_get ht
    have hb2 : s.get? (t + 1) = some (s.get ⟨t + 1, h⟩) := List.get?_eq_get h
    simp only [targetCol, closeAt, closeCol, hb1, hb2, Option.map_some',
      Option.getD_some, if_neg hne, oGT, gt_iff_lt, decide_eq_true_eq]
  · intro h
    simp only [targetCol, if_pos h]

/-- Witness for C5: closes 100, 102, 101, 105 produce the labels
1, 0, 1, NaN. -/
theorem label_correct_C5_witness :
    targetCol exBars 0 = some 1 ∧ targetCol exBars 1 = some 0 ∧
      targetCol exBars 2 = some 1 ∧ targetCol exBars 3 = none := by
  refine ⟨?_, ?_, ?_, (label_correct_C5 exBars 3).2 (by decide)⟩
  · rw [(label_correct_C5 exBars 0).1 (by decide)]
    decide
  · rw [(label_correct_C5 exBars 1).1 (by decide)]
    decide
  · rw [(label_correct_C5 exBars 2).1 (by decide)]
    decide

/-- Claim C3: on the probability series `[0.7, 0.7, 0.3, 0.3]` over closes
`[10, 11, 12, 13]` with `buy_threshold = 0.6` and `sell_threshold = 0.4`,
the backtest opens at close 10 (t = 0), exits at `close[3] = 13` one
session after the sell trigger at t = 2, and reports exactly one trade with
return `(13 - 10)/10 = 30%`. -/
theorem backtest_trace_C3 :
    (runBacktestSim [10, 11, 12, 13] [7/10, 7/10, 3/10, 3/10] (6/10) (4/10)).trades
        = [⟨10, 13, 3/10⟩] ∧
      (runBacktestSim [10, 11, 12, 13] [7/10, 7/10, 3/10, 3/10] (6/10) (4/10)).numTrades = 1 ∧
      (runBacktestSim [10, 11, 12, 13] [7/10, 7/10, 3/10, 3/10] (6/10) (4/10)).totalReturn = 30 := by
  have e0 : backtestStep (6/10) (4/10) 10 11 (7/10)
      { holding := false, entryPrice := 0, trades := [], pv := [1] } =
      { holding := true, entryPrice := 10, trades := [], pv := [1] } := by
    unfold backtestStep
    norm_num
  have e1 : backtestStep (6/10) (4/10) 11 12 (7/10)
      { holding := true, entryPrice := 10, trades := [], pv := [1] } =
      { holding := true, entryPrice := 10, trades := [], pv := [1, 12/11] } := by
    unfold backtestStep
    norm_num [List.getLastD]
  have e2 : backtestStep (6/10) (4/10) 12 13 (3/10)
      { holding := true, entryPrice := 10, trades := [], pv := [1, 12/11] } =
      { holding := false, entryPrice := 10, trades := [⟨10, 13, 3/10⟩],
        pv := [1, 12/11, 13/11] } := by
    unfold backtestStep
    norm_num [List.getLastD]
  have hfold : (List.range ([(7:ℚ)/10, 7/10, 3/10, 3/10].length - 1)).foldl
      (fun st i => backtestStep (6/10) (4/10) ([(10:ℚ), 11, 12, 13].getD i 0)
        ([(10:ℚ), 11, 12, 13].getD (i+1) 0)
        ([(7:ℚ)/10, 7/10, 3/10, 3/10].getD i 0) st)
      { holding := false, entryPrice := 0, trades := [], pv := [1] } =
      { holding := false, entryPrice := 10, trades := [⟨10, 13, 3/10⟩],
        pv := [1, 12/11, 13/11] } := by
    rw [show ([(7:ℚ)/10, 7/10, 3/10, 3/10].length - 1) = 3 from rfl,
      show List.range 3 = [0, 1, 2] from rfl]
    simp only [List.foldl, List.getD_cons_zero, List.getD_cons_succ]
    rw [e0, e1, e2]
  refine ⟨?_, ?_, ?_⟩
  · simp only [runBacktestSim]
    rw [hfold]
    norm_num
  · simp only [runBacktestSim]
    rw [hfold]
    norm_num
  · simp only [runBacktestSim]
    rw [hfold]
    norm_num [roundHalfEven2]

/-- Claim C4: both threshold comparisons are strict — when flat and
`P(up)` equals `buy_threshold` the step does not open a position (the state
is unchanged), and when holding and `P(up)` equals `sell_threshold` the
step does not close the position (still holding, same entry price, no new
trade). -/
theorem threshold_strictness_C4 (buyTh sellTh cur next p : ℚ) (st : BState)
    (hbuy : st.holding = false → p = buyTh)
    (hsell : st.holding = true → p = sellTh) :
    (st.holding = false → backtestStep buyTh sellTh cur next p st = st) ∧
      (st.holding = true →
        (backtestStep buyTh sellTh cur next p st).holding = true ∧
        (backtestStep buyTh sellTh cur next p st).entryPrice = st.entryPrice ∧
        (backtestStep buyTh sellTh cur next p st).trades = st.trades) := by
  constructor
  · intro hf
    have hp := hbuy hf
    unfold backtestStep
    rw [hf]
    simp [hp, lt_irrefl]
  · intro ht
    have hp := hsell ht
    unfold backtestStep
    rw [ht]
    simp [hp, lt_irrefl]

/-- Witness for C4 at a concrete flat state and a concrete holding state. -/
theorem threshold_strictness_C4_witness :
    (backtestStep (6/10) (4/10) 10 11 (6/10)
        { holding := false, entryPrice := 0, trades := [], pv := [1] } =
      { holding := false, entryPrice := 0, trades := [], pv := [1] }) ∧
      (backtestStep (6/10) (4/10) 10 11 (4/10)
          { holding := true, entryPrice := 9, trades := [], pv := [1] }).holding = true := by
  refine ⟨?_, ?_⟩
  · exact (threshold_strictness_C4 (6/10) (4/10) 10 11 (6/10)
      { holding := false, entryPrice := 0, trades := [], pv := [1] }
      (fun _ => rfl) (by intro h; cases h)).1 rfl
  · exact ((threshold_strictness_C4 (6/10) (4/10) 10 11 (4/10)
      { holding := true, entryPrice := 9, trades := [], pv := [1] }
      (by intro h; cases h) (fun _ => rfl)).2 rfl).1

/-- Claim C7: the hyperparameters depend only on the training-row count —
below 1000 rows the regularized configuration (50 estimators, depth 5,
min_samples_leaf 10), at 1000 or more the higher-capacity configuration
(100 estimators, unbounded depth, min_samples_leaf 2). -/
theorem rf_params_tiering_C7 (n : ℕ) :
    (n < 1000 → get_rf_params n =
      { nEstimators := 50, maxDepth := some 5, minSamplesLeaf := 10,
        maxFeatures := "sqrt", randomState := 42, nJobs := -1 }) ∧
      (1000 ≤ n → get_rf_params n =
        { nEstimators := 100, maxDepth := none, minSamplesLeaf := 2,
          maxFeatures := "sqrt", randomState := 42, nJobs := -1 }) := by
  constructor
  · intro h
    simp [get_rf_params, h]
  · intro h
    simp [get_rf_params, Nat.not_lt.mpr h]

/-- Witness for C7 at 500 and 2000 training rows. -/
theorem rf_params_tiering_C7_witness :
    get_rf_params 500 =
      { nEstimators := 50, maxDepth := some 5, minSamplesLeaf := 10,
        maxFeatures := "sqrt", randomState := 42, nJobs := -1 } ∧
      get_rf_params 2000 =
        { nEstimators := 100, maxDepth := none, minSamplesLeaf := 2,
          maxFeatures := "sqrt", randomState := 42, nJobs := -1 } :=
  ⟨(rf_params_tiering_C7 500).1 (by decide),
   (rf_params_tiering_C7 2000).2 (by decide)⟩

/-- Claim C6: when fewer than 50 usable rows (defined label and complete
features) remain, `train_random_forest` returns a failure dict — no fitted
model and a descriptive error string — and never reaches the classifier
fit. -/
theorem min_data_rejection_C6 (data : List SRow) (testSize : ℚ)
    (h : (data.filter rowComplete).length < 50) :
    (train_random_forest data testSize).hasModel = false ∧
      ∃ msg, (train_random_forest data testSize).errMsg = some msg ∧
        (msg = "Empty dataset" ∨
          msg = "Too few rows: " ++ toString (data.filter rowComplete).length) := by
  unfold train_random_forest
  by_cases hd : data.isEmpty
  · simp only [hd, if_true]
    exact ⟨rfl, "Empty dataset", rfl, Or.inl rfl⟩
  · simp only [hd, if_false, if_pos h]
    exact ⟨rfl, "Too few rows: " ++ toString (data.filter rowComplete).length,
      rfl, Or.inr rfl⟩

/-- Witness for C6 on the empty DataFrame. -/
theorem min_data_rejection_C6_witness :
    (train_random_forest [] (1/5)).hasModel = false ∧
      ∃ msg, (train_random_forest [] (1/5)).errMsg = some msg ∧
        (msg = "Empty dataset" ∨
          msg = "Too few rows: " ++ toString (([] : List SRow).filter rowComplete).length) :=
  min_data_rejection_C6 [] (1/5) (by decide)

/-- C8 counterexample: in the first `process_ticker`, with a Long-term
analysis score of 4, the ETF version of a ticker is returned with score 5
while the non-ETF version is returned with score 4 — the instrument class
changed the returned score, refuting the claim that it only lowers the
acceptance threshold. -/
theorem etf_changes_score_C8_counterexample :
    process_ticker_v1 .longTerm true 4 = some 5 ∧
      process_ticker_v1 .longTerm false 4 = some 4 ∧ (5 : ℤ) ≠ 4 := by
  decide

/-- Claim C8 (amended): in the first `process_ticker` definition, Short-term
mode lowers the threshold for ETFs (3 to 2) and returns the score
unchanged, but Long-term mode both lowers the threshold (4 to 2) and adds a
stability bonus of 1 to the returned score; moreover the second, shadowing
definition of `process_ticker` applies no instrument-class adjustment at
all (it behaves like the first definition on non-ETF input for every
ticker). -/
theorem etf_threshold_adjustment_C8 (sc : ℤ) (e : Bool) (m : Mode) :
    process_ticker_v1 .shortTerm e sc =
        (if (if e then (2 : ℤ) else 3) ≤ sc then some sc else none) ∧
      process_ticker_v1 .longTerm true sc =
        (if 1 ≤ sc then some (sc + 1) else none) ∧
      process_ticker_v1 .longTerm false sc =
        (if 4 ≤ sc then some sc else none) ∧
      process_ticker_v2 m sc = process_ticker_v1 m false sc := by
  refine ⟨?_, ?_, ?_, ?_⟩
  · cases e <;> simp [process_ticker_v1, ge_iff_le]
  · simp only [process_ticker_v1, if_true]
    by_cases h : 1 ≤ sc
    · rw [if_pos (by omega : sc + 1 ≥ 2), if_pos h]
    · rw [if_neg (by omega : ¬ sc + 1 ≥ 2), if_neg h]
  · simp [process_ticker_v1, ge_iff_le]
  · cases m <;> simp [process_ticker_v1, process_ticker_v2, ge_iff_le]

/-- The two descending sorts of completion-order permutations of the same
results coincide when no two results share a score. -/
theorem sortDesc_eq_of_perm_of_distinct (l₁ l₂ : List Rec) (hperm : l₁.Perm l₂)
    (hdist : l₁.Pairwise fun a b => a.score ≠ b.score) :
    l₁.insertionSort scoreGE = l₂.insertionSort scoreGE := by
  have hsymm : ∀ {x y : Rec}, x.score ≠ y.score → y.score ≠ x.score :=
    fun h => h.symm
  have p₁ := List.perm_insertionSort scoreGE l₁
  have p₂ := List.perm_insertionSort scoreGE l₂
  have hpp : (l₁.insertionSort scoreGE).Perm (l₂.insertionSort scoreGE) :=
    (p₁.trans hperm).trans p₂.symm
  have hs₁ : List.Sorted scoreGE (l₁.insertionSort scoreGE) :=
    List.sorted_insertionSort scoreGE l₁
  have hs₂ : List.Sorted scoreGE (l₂.insertionSort scoreGE) :=
    List.sorted_insertionSort scoreGE l₂
  have hd₁ : (l₁.insertionSort scoreGE).Pairwise (fun a b => a.score ≠ b.score) :=
    (p₁.pairwise_iff hsymm).mpr hdist
  have hd₂ : (l₂.insertionSort scoreGE).Pairwise (fun a b => a.score ≠ b.score) :=
    (p₂.pairwise_iff hsymm).mpr ((hperm.pairwise_iff hsymm).mp hdist)
  have hstrict : ∀ {l : List Rec}, l.Pairwise scoreGE →
      l.Pairwise (fun a b => a.score ≠ b.score) → l.Pairwise scoreStrict :=
    fun hle hne => hle.imp₂ (fun _ _ h1 h2 => Or.inl (lt_of_le_of_ne h1 (Ne.symm h2))) hne
  exact List.eq_of_perm_of_sorted hpp (hstrict hs₁ hd₁) (hstrict hs₂ hd₂)

/-- C9 counterexample: two tickers with identical scores (3) arriving in the
two possible completion orders are the same multiset of per-ticker results,
yet `get_stock_recommendations` returns differently ordered `top_picks` —
the sort key is the score alone and ties keep completion order, so the
output is not independent of task completion order. -/
theorem order_nondeterminism_C9_counterexample :
    [recTieA, recTieB].Perm [recTieB, recTieA] ∧
      get_stock_recommendations [recTieA, recTieB] ≠
        get_stock_recommendations [recTieB, recTieA] := by
  constructor
  · exact List.Perm.swap recTieB recTieA []
  · decide

/-- Claim C9 (amended): the ranked output is sorted by score alone (ties
retain completion order), so two runs with identical per-ticker results but
different completion orders produce identical `top_picks` and `warnings`
lists only when no two results share a score; with all retained scores
distinct the output is completion-order independent. -/
theorem order_determinism_distinct_C9 (l₁ l₂ : List Rec) (hperm : l₁.Perm l₂)
    (hdist : l₁.Pairwise fun a b => a.score ≠ b.score) :
    get_stock_recommendations l₁ = get_stock_recommendations l₂ := by
  have hsort := sortDesc_eq_of_perm_of_distinct l₁ l₂ hperm hdist
  simp only [get_stock_recommendations, hsort]

/-- Witness for C9 at two completion orders of two distinct-score results. -/
theorem order_determinism_distinct_C9_witness :
    get_stock_recommendations [recDistA, recDistB] =
      get_stock_recommendations [recDistB, recDistA] :=
  order_determinism_distinct_C9 [recDistA, recDistB] [recDistB, recDistA]
    (List.Perm.swap recDistB recDistA []) (by decide)

/-- The MA-trend block contributes between −1 and 2. -/
theorem maScoreOf_bounds (r : IndRow) : -1 ≤ maScoreOf r ∧ maScoreOf r ≤ 2 := by
  unfold maScoreOf
  split_ifs <;> exact ⟨by decide, by decide⟩

/-- The RSI block contributes between −1 and 1. -/
theorem rsiScoreOf_bounds (r : IndRow) : -1 ≤ rsiScoreOf r ∧ rsiScoreOf r ≤ 1 := by
  unfold rsiScoreOf
  split_ifs <;> exact ⟨by decide, by decide⟩

/-- The MACD block contributes 0 or 1. -/
theorem macdScoreOf_bounds (r : IndRow) : 0 ≤ macdScoreOf r ∧ macdScoreOf r ≤ 1 := by
  unfold macdScoreOf
  split_ifs <;> exact ⟨by decide, by decide⟩

/-- The institutional block contributes 0 or 1. -/
theorem instScoreOf_bounds (t : Option ℤ) : 0 ≤ instScoreOf t ∧ instScoreOf t ≤ 1 := by
  cases t with
  | none => exact ⟨by decide, by decide⟩
  | some v =>
    show 0 ≤ (if v > 0 then (1:ℤ) else 0) ∧ (if v > 0 then (1:ℤ) else 0) ≤ 1
    split_ifs <;> exact ⟨by decide, by decide⟩

/-- The volume block contributes 0 or 1. -/
theorem volScoreOf_bounds (v : ℚ) (a : Option ℚ) :
    0 ≤ volScoreOf v a ∧ volScoreOf v a ≤ 1 := by
  unfold volScoreOf
  split_ifs <;> exact ⟨by decide, by decide⟩

/-- The KD block contributes between −1 and 2. -/
theorem kdScoreOf_bounds (r p : IndRow) : -1 ≤ kdScoreOf r p ∧ kdScoreOf r p ≤ 2 := by
  unfold kdScoreOf
  split_ifs <;> exact ⟨by decide, by decide⟩

/-- C10 counterexample: on a non-empty (1-row) indicator DataFrame,
`analyze_short_term` raises (`int()` of the NaN 5-day volume average)
instead of returning a score, so it is not the case that every non-empty
series yields a score in [−3, 8]. -/
theorem short_term_raises_C10_counterexample :
    analyze_short_term [oneRowEx] none =
        .error "ValueError: cannot convert float NaN to integer" ∧
      ([oneRowEx] : List IndRow) ≠ [] := by
  exact ⟨rfl, by decide⟩

/-- Claim C10 (amended): an empty DataFrame scores exactly 0; a DataFrame
with at least 5 rows always yields a score between −3 and 8 inclusive
(worst case −1 MA −1 RSI −1 KD, best case +2 MA +1 RSI +1 MACD +1 flow
+1 volume +2 KD); a non-empty DataFrame with fewer than 5 rows raises
`ValueError` (from `int()` of the NaN 5-day volume average) and returns no
score at all. -/
theorem short_term_score_bounds_C10 (df : List IndRow) (inst : Option ℤ) :
    (df = [] → analyze_short_term df inst = .ok (.neutral, 0)) ∧
      (5 ≤ df.length →
        ∃ sig s, analyze_short_term df inst = .ok (sig, s) ∧ -3 ≤ s ∧ s ≤ 8) ∧
      (df.length < 5 → df ≠ [] →
        analyze_short_term df inst =
          .error "ValueError: cannot convert float NaN to integer") := by
  refine ⟨?_, ?_, ?_⟩
  · intro h
    subst h
    rfl
  · intro h5
    have hne : ¬ (df.isEmpty = true) := by
      cases df with
      | nil => simp at h5
      | cons a l => simp
    unfold analyze_short_term
    rw [if_neg hne, if_pos h5]
    simp only [Option.isNone_some, Bool.false_eq_true, if_false]
    rw [if_neg (show ¬ (df.length < 2) by omega)]
    refine ⟨_, _, rfl, ?_, ?_⟩
    · have b1 := maScoreOf_bounds (df.getLastD default)
      have b2 := rsiScoreOf_bounds (df.getLastD default)
      have b3 := macdScoreOf_bounds (df.getLastD default)
      have b4 := instScoreOf_bounds inst
      have b5 := volScoreOf_bounds (df.getLastD default).volume
        (some (((df.drop (df.length - 5)).map IndRow.volume).sum / 5))
      have b6 := kdScoreOf_bounds (df.getLastD default) (df.getD (df.length - 2) default)
      omega
    · have b1 := maScoreOf_bounds (df.getLastD default)
      have b2 := rsiScoreOf_bounds (df.getLastD default)
      have b3 := macdScoreOf_bounds (df.getLastD default)
      have b4 := instScoreOf_bounds inst
      have b5 := volScoreOf_bounds (df.getLastD default).volume
        (some (((df.drop (df.length - 5)).map IndRow.volume).sum / 5))
      have b6 := kdScoreOf_bounds (df.getLastD default) (df.getD (df.length - 2) default)
      omega
  · intro h4 hne
    have hne2 : ¬ (df.isEmpty = true) := by
      cases df with
      | nil => exact absurd rfl hne
      | cons a l => simp
    unfold analyze_short_term
    rw [if_neg hne2, if_neg (show ¬ (5 ≤ df.length) by omega)]
    simp only [Option.isNone_none, if_true]

/-- Witness for C10 on the empty DataFrame and on a 5-row DataFrame. -/
theorem short_term_score_bounds_C10_witness :
    analyze_short_term [] none = .ok (.neutral, 0) ∧
      ∃ sig s, analyze_short_term fiveRowsEx none = .ok (sig, s) ∧
        -3 ≤ s ∧ s ≤ 8 :=
  ⟨(short_term_score_bounds_C10 [] none).1 rfl,
   (short_term_score_bounds_C10 fiveRowsEx none).2.1 (by decide)⟩

/-! ### Causality lemmas: every feature column at position `t` is a
function of the cells at positions `≤ t`. -/

/-- Series that agree on the prefix up to `t` have equal cells at every
position `≤ t`. -/
theorem get?_eq_of_take_eq {s₁ s₂ : List Bar} {t i : ℕ}
    (h : s₁.take (t + 1) = s₂.take (t + 1)) (hi : i ≤ t) :
    s₁.get? i = s₂.get? i := by
  have hlt : i < t + 1 := Nat.lt_succ_of_le hi
  calc s₁.get? i = (s₁.take (t + 1)).get? i := (List.get?_take hlt).symm
    _ = (s₂.take (t + 1)).get? i := by rw [h]
    _ = s₂.get? i := List.get?_take hlt

theorem agreeTo_closeCol {s₁ s₂ : List Bar} {t : ℕ}
    (h : s₁.take (t + 1) = s₂.take (t + 1)) :
    AgreeTo t (closeCol s₁) (closeCol s₂) := by
  intro i hi
  unfold closeCol
  rw [get?_eq_of_take_eq h hi]

theorem agreeTo_highCol {s₁ s₂ : List Bar} {t : ℕ}
    (h : s₁.take (t + 1) = s₂.take (t + 1)) :
    AgreeTo t (highCol s₁) (highCol s₂) := by
  intro i hi
  unfold highCol
  rw [get?_eq_of_take_eq h hi]

theorem agreeTo_lowCol {s₁ s₂ : List Bar} {t : ℕ}
    (h : s₁.take (t + 1) = s₂.take (t + 1)) :
    AgreeTo t (lowCol s₁) (lowCol s₂) := by
  intro i hi
  unfold lowCol
  rw [get?_eq_of_take_eq h hi]

theorem agreeTo_volumeCol {s₁ s₂ : List Bar} {t : ℕ}
    (h : s₁.take (t + 1) = s₂.take (t + 1)) :
    AgreeTo t (volumeCol s₁) (volumeCol s₂) := by
  intro i hi
  unfold volumeCol
  rw [get?_eq_of_take_eq h hi]

theorem AgreeTo.diff {t : ℕ} {c₁ c₂ : ℕ → Option ℚ} (h : AgreeTo t c₁ c₂) :
    AgreeTo t (diffCol c₁) (diffCol c₂) := by
  intro i hi
  unfold diffCol
  rw [h i hi, h (i - 1) (le_trans (Nat.sub_le i 1) hi)]

theorem AgreeTo.gain {t : ℕ} {c₁ c₂ : ℕ → Option ℚ} (h : AgreeTo t c₁ c₂) :
    AgreeTo t (gainCol c₁) (gainCol c₂) := by
  intro i hi
  simp only [gainCol, h i hi, h.diff i hi]

theorem AgreeTo.loss {t : ℕ} {c₁ c₂ : ℕ → Option ℚ} (h : AgreeTo t c₁ c₂) :
    AgreeTo t (lossCol c₁) (lossCol c₂) := by
  intro i hi
  simp only [lossCol, h i hi, h.diff i hi]

theorem AgreeTo.window {t : ℕ} {c₁ c₂ : ℕ → Option ℚ} (h : AgreeTo t c₁ c₂)
    (p : ℕ) : AgreeTo t (windowAt p c₁) (windowAt p c₂) := by
  intro i hi
  unfold windowAt
  by_cases hp : i + 1 < p
  · rw [if_pos hp, if_pos hp]
  · rw [if_neg hp, if_neg hp]
    exact congrArg collectSome (List.map_congr_left
      (fun j _ => h (i - j) (le_trans (Nat.sub_le i j) hi)))

theorem AgreeTo.rollMean {t : ℕ} {c₁ c₂ : ℕ → Option ℚ}
    (h : AgreeTo t c₁ c₂) (p : ℕ) :
    AgreeTo t (rollingMean p c₁) (rollingMean p c₂) := by
  intro i hi
  unfold rollingMean
  rw [h.window p i hi]

theorem AgreeTo.rollMin {t : ℕ} {c₁ c₂ : ℕ → Option ℚ}
    (h : AgreeTo t c₁ c₂) (p : ℕ) :
    AgreeTo t (rollingMin p c₁) (rollingMin p c₂) := by
  intro i hi
  unfold rollingMin
  rw [h.window p i hi]

theorem AgreeTo.rollMax {t : ℕ} {c₁ c₂ : ℕ → Option ℚ}
    (h : AgreeTo t c₁ c₂) (p : ℕ) :
    AgreeTo t (rollingMax p c₁) (rollingMax p c₂) := by
  intro i hi
  unfold rollingMax
  rw [h.window p i hi]

theorem AgreeTo.rollVar {t : ℕ} {c₁ c₂ : ℕ → Option ℚ}
    (h : AgreeTo t c₁ c₂) (p : ℕ) :
    AgreeTo t (rollingVar p c₁) (rollingVar p c₂) := by
  intro i hi
  unfold rollingVar
  rw [h.window p i hi]

theorem AgreeTo.ewm {t : ℕ} {c₁ c₂ : ℕ → Option ℚ} (h : AgreeTo t c₁ c₂)
    (α : ℚ) : AgreeTo t (ewmCol α c₁) (ewmCol α c₂) := by
  intro i
  induction i with
  | zero =>
    intro hi
    simp only [ewmCol, h 0 hi]
  | succ n ih =>
    intro hi
    simp only [ewmCol, h (n + 1) hi, ih (le_trans (Nat.le_succ n) hi)]

theorem AgreeTo.shift {t : ℕ} {c₁ c₂ : ℕ → Option ℚ} (h : AgreeTo t c₁ c₂)
    (k : ℕ) : AgreeTo t (shiftCol k c₁) (shiftCol k c₂) := by
  intro i hi
  unfold shiftCol
  by_cases hk : i < k
  · rw [if_pos hk, if_pos hk]
  · rw [if_neg hk, if_neg hk, h (i - k) (le_trans (Nat.sub_le i k) hi)]

theorem AgreeTo.pct {t : ℕ} {c₁ c₂ : ℕ → Option ℚ}
    (h : AgreeTo t c₁ c₂) (k : ℕ) :
    AgreeTo t (pctChangeCol k c₁) (pctChangeCol k c₂) := by
  intro i hi
  unfold pctChangeCol
  by_cases hk : i < k
  · rw [if_pos hk, if_pos hk]
  · rw [if_neg hk, if_neg hk, h i hi, h (i - k) (le_trans (Nat.sub_le i k) hi)]

theorem AgreeTo.rsi {t : ℕ} {c₁ c₂ : ℕ → Option ℚ} (h : AgreeTo t c₁ c₂) :
    AgreeTo t (rsiCol c₁) (rsiCol c₂) := by
  intro i hi
  unfold rsiCol
  rw [h.gain.rollMean 14 i hi, h.loss.rollMean 14 i hi]

theorem AgreeTo.macdc {t : ℕ} {c₁ c₂ : ℕ → Option ℚ} (h : AgreeTo t c₁ c₂) :
    AgreeTo t (macdCol c₁) (macdCol c₂) := by
  intro i hi
  unfold macdCol
  rw [h.ewm (2/13) i hi, h.ewm (2/27) i hi]

theorem AgreeTo.macdSig {t : ℕ} {c₁ c₂ : ℕ → Option ℚ}
    (h : AgreeTo t c₁ c₂) :
    AgreeTo t (macdSignalCol c₁) (macdSignalCol c₂) := by
  intro i hi
  unfold macdSignalCol
  exact h.macdc.ewm (2/10) i hi

theorem AgreeTo.macdHist {t : ℕ} {c₁ c₂ : ℕ → Option ℚ}
    (h : AgreeTo t c₁ c₂) :
    AgreeTo t (macdHistCol c₁) (macdHistCol c₂) := by
  intro i hi
  unfold macdHistCol
  rw [h.macdc i hi, h.macdSig i hi]

theorem AgreeTo.bias20 {t : ℕ} {c₁ c₂ : ℕ → Option ℚ}
    (h : AgreeTo t c₁ c₂) :
    AgreeTo t (bias20Col c₁) (bias20Col c₂) := by
  intro i hi
  unfold bias20Col
  rw [h i hi, h.rollMean 20 i hi]

theorem agreeTo_hlRangeCol {s₁ s₂ : List Bar} {t : ℕ}
    (h : s₁.take (t + 1) = s₂.take (t + 1)) :
    AgreeTo t (hlRangeCol s₁) (hlRangeCol s₂) := by
  intro i hi
  unfold hlRangeCol
  rw [get?_eq_of_take_eq h hi]

theorem agreeTo_stochKCol {s₁ s₂ : List Bar} {t : ℕ}
    (h : s₁.take (t + 1) = s₂.take (t + 1)) :
    AgreeTo t (stochKCol s₁) (stochKCol s₂) := by
  intro i hi
  unfold stochKCol
  rw [agreeTo_closeCol h i hi, (agreeTo_lowCol h).rollMin 9 i hi,
    (agreeTo_highCol h).rollMax 9 i hi]

theorem agreeTo_stochDCol {s₁ s₂ : List Bar} {t : ℕ}
    (h : s₁.take (t + 1) = s₂.take (t + 1)) :
    AgreeTo t (stochDCol s₁) (stochDCol s₂) := by
  intro i hi
  unfold stochDCol
  exact (agreeTo_stochKCol h).rollMean 3 i hi

/-- Claim C1: causality / no leakage — two bar series that agree on all
bars at or before position `t` produce the same non-label feature row at
`t`, whatever the bars strictly after `t` are. -/
theorem no_leakage_C1 (s₁ s₂ : List Bar) (lags : ℕ) (addKd : Bool) (t : ℕ)
    (h : s₁.take (t + 1) = s₂.take (t + 1)) :
    create_features_row s₁ lags addKd t = create_features_row s₂ lags addKd t := by
  have hc := agreeTo_closeCol h
  have hv := agreeTo_volumeCol h
  have hret := hc.pct 1
  unfold create_features_row
  simp only [FeatureRow.mk.injEq]
  refine ⟨?_, ?_, ?_, ?_, ?_, ?_, ?_, ?_, ?_, ?_, ?_, ?_, ?_, ?_⟩
  · exact hc.rsi t (le_refl t)
  · exact hc.macdc t (le_refl t)
  · exact hc.macdSig t (le_refl t)
  · exact hc.macdHist t (le_refl t)
  · exact hret t (le_refl t)
  · exact hc.pct 5 t (le_refl t)
  · exact hret.rollVar 20 t (le_refl t)
  · exact hc.bias20 t (le_refl t)
  · exact agreeTo_hlRangeCol h t (le_refl t)
  · exact List.map_congr_left (fun k _ => hc.shift (k + 1) t (le_refl t))
  · exact List.map_congr_left (fun k _ => hv.shift (k + 1) t (le_refl t))
  · exact List.map_congr_left (fun k _ => hret.shift (k + 1) t (le_refl t))
  · cases addKd with
    | false => rfl
    | true =>
      simp only [if_true]
      exact agreeTo_stochKCol h t (le_refl t)
  · cases addKd with
    | false => rfl
    | true =>
      simp only [if_true]
      exact agreeTo_stochDCol h t (le_refl t)

/-- Witness for C1: two series sharing bar 0 but differing at bar 1 have
identical feature rows at t = 0. -/
theorem no_leakage_C1_witness :
    exSeriesA.take 1 = exSeriesB.take 1 ∧
      create_features_row exSeriesA 3 true 0 = create_features_row exSeriesB 3 true 0 :=
  ⟨by decide, no_leakage_C1 exSeriesA exSeriesB 3 true 0 (by decide)⟩

end TwStock
